import Mathlib

/-!
Verification development for the nlp-benchmarking repository.

The numeric core of the repository is embedded shallowly:
- Python floats are modelled as exact rationals (`ℚ`); all arithmetic in the
  embedded code paths is on small decimal constants, so the exact-rational
  model coincides with the intended real-number semantics of the spec.
- Python `int(x)` (truncation toward zero) is modelled by `pyInt`.
- The wandb experiment-tracking store is modelled by an effect trace:
  each summary-field mutation and each `summary.update()` call becomes an
  explicit `StoreEffect`; a read or commit that can fail is an `Except`.
-/

namespace NLPBench

/-- Python builtin `int(x)`: truncation toward zero of an exact rational. -/
def pyInt (q : ℚ) : ℤ := if 0 ≤ q then ⌊q⌋ else ⌈q⌉

theorem pyInt_eq_floor (q : ℚ) (h : 0 ≤ q) : pyInt q = ⌊q⌋ := by
  simp [pyInt, h]

/-! ## Embedding of src/compute_mfu.py

Source (src/src/compute_mfu.py):
```
gpu_constant = 154.85
parameters = 125000000 / 10**9
layers = 12
heads = 12
head_dimension = 64 / 10**6
...
for run in runs:
    sequence_length = run.config["max_sequence_length"] / 10**3
    R = gpu_constant / (6*parameters + 12*layers*heads*head_dimension*sequence_length)
    mean_tokens = run.summary["TokensPerSecond"]["mean"] / 1000
    mfu = mean_tokens / R
    print(f"...")
    run.summary["mean_mfu"] = mfu
    run.summary["max_tokens_theoretical"] = R*1000
    run.summary.update()
```
-/

def gpu_constant : ℚ := 15485 / 100

def parameters : ℚ := 125000000 / 10 ^ 9

def layers : ℚ := 12

def heads : ℚ := 12

def head_dimension : ℚ := 64 / 10 ^ 6

/-- Line 14 of compute_mfu.py: the theoretical peak `R`, as a function of the
already-scaled sequence length (`run.config["max_sequence_length"] / 10**3`). -/
def R (sequence_length : ℚ) : ℚ :=
  gpu_constant / (6 * parameters + 12 * layers * heads * head_dimension * sequence_length)

/-- Line 16 of compute_mfu.py: `mfu = mean_tokens / R`. -/
def mfu (mean_tokens r : ℚ) : ℚ := mean_tokens / r

/-- The per-run theoretical peak, from the raw (unscaled) config value
`max_sequence_length`, following line 13 then line 14. -/
def runTheoretical (max_sequence_length : ℚ) : ℚ :=
  R (max_sequence_length / 10 ^ 3)

/-- The per-run `mean_mfu` value written on line 18, from the raw config and
summary values (lines 13, 15, 16). -/
def runMeanMfu (max_sequence_length tokens_per_second_mean : ℚ) : ℚ :=
  mfu (tokens_per_second_mean / 1000) (runTheoretical max_sequence_length)

/-- The `max_tokens_theoretical` value written on line 19: `R*1000`. -/
def maxTokensTheoretical (max_sequence_length : ℚ) : ℚ :=
  runTheoretical max_sequence_length * 1000

/-- One observable interaction with the experiment-tracking store or console. -/
inductive StoreEffect where
  | consolePrint (runName : String)
  | setSummary (field : String) (value : ℚ)
  | summaryUpdate
  deriving DecidableEq, Repr

/-- A wandb run as seen by compute_mfu.py. Each store read that the script
performs, and the final commit, may fail (MetricsStoreError / KeyError); a
failing access is `.error`, mirroring a raised Python exception. -/
structure WandbRun where
  runName : String
  max_sequence_length : Except String ℚ
  tokens_per_second_mean : Except String ℚ
  update_result : Except String Unit
  deriving Repr

/-- The body of the `for run in runs` loop (lines 13-20 of compute_mfu.py),
as an effect trace. A raised exception anywhere in the body is the `.error`
case; otherwise the trace lists, in order, the console print, the two
summary-field mutations, and the `summary.update()` commit. -/
def processRun (run : WandbRun) : Except String (List StoreEffect) := do
  let msl ← run.max_sequence_length
  let sequence_length := msl / 10 ^ 3
  let r := gpu_constant / (6 * parameters + 12 * layers * heads * head_dimension * sequence_length)
  let tps ← run.tokens_per_second_mean
  let mean_tokens := tps / 1000
  let m := mfu mean_tokens r
  let _ ← run.update_result
  pure [StoreEffect.consolePrint run.runName,
        StoreEffect.setSummary "mean_mfu" m,
        StoreEffect.setSummary "max_tokens_theoretical" (r * 1000),
        StoreEffect.summaryUpdate]

/-- The `for run in runs` loop itself (line 12). The loop body is not wrapped
in any exception handler in the source, so an exception raised while
processing one run propagates and terminates the whole loop. -/
def processRuns : List WandbRun → Except String (List (String × List StoreEffect))
  | [] => .ok []
  | run :: rest => do
      let effs ← processRun run
      let tail ← processRuns rest
      pure ((run.runName, effs) :: tail)

/-- The summary fields mutated in an effect trace, in order of mutation. -/
def writtenFields : List StoreEffect → List String
  | [] => []
  | StoreEffect.setSummary f _ :: rest => f :: writtenFields rest
  | _ :: rest => writtenFields rest

/-! ## Embedding of train.py

Only the fields of `TrainingArgs` that the numeric core (fraction resolution
in `__post_init__`, batch-size resolution, goal-unit conversion at lines
327-346 of train.py) reads or writes are modelled. Integer-typed Python
fields are `ℕ` (all are non-negative counts); float-typed fields are `ℚ`.
The training-goal unit is kept as a string because the source branches on a
string and falls through to a raised `ValueError` for unknown values. -/

structure TrainingArgs where
  training_goal : ℚ
  training_goal_unit : String
  val_frequency : ℚ
  model_log_frequency : ℚ
  lr_warmup : ℚ
  batch_size_per_device : ℕ
  effective_batch_size : Option ℕ
  num_devices : ℕ
  gradient_accumulation_steps : ℕ
  max_sequence_length : ℕ
  deriving DecidableEq, Repr

/-- Lines 195-201 of train.py (`TrainingArgs.__post_init__`): each schedule
value strictly below 1 is replaced, at parse time, by
`int(training_goal * value)`. -/
def TrainingArgs.postInit (a : TrainingArgs) : TrainingArgs :=
  { a with
    val_frequency :=
      if a.val_frequency < 1 then (pyInt (a.training_goal * a.val_frequency) : ℚ)
      else a.val_frequency,
    model_log_frequency :=
      if a.model_log_frequency < 1 then (pyInt (a.training_goal * a.model_log_frequency) : ℚ)
      else a.model_log_frequency,
    lr_warmup :=
      if a.lr_warmup < 1 then (pyInt (a.training_goal * a.lr_warmup) : ℚ)
      else a.lr_warmup }

/-- The error taxonomy of configuration resolution: the ValueError raised at
line 337 of train.py for an unrecognized unit, the ConfigError of the
batch-size resolver, and the TypeError Python would raise at line 328/331 if
`args.effective_batch_size` were still `None` when read. -/
inductive ConfigError where
  | unknownUnit (unit : String)
  | nonPositiveDeviceOrBatch
  | missingEffectiveBatchSize
  deriving DecidableEq, Repr

/-- Modelled from the spec: `handle_batch_size_logic_` is defined in
src/helpers.py, which is not part of the provided sources; only its call site
(line 304 of train.py) is. Spec section 4.2 (BatchSizeResolver): if the
requested effective batch size is absent, gradient_accumulation_steps = 1 and
the realized effective batch size is per_device * device_count; otherwise
gradient_accumulation_steps = ceil(requested / (per_device * device_count))
clamped to a minimum of 1, and the realized value is recomputed from the
rounded-up accumulation count. It fails with ConfigError when device_count or
per_device_batch_size is not positive. The trailing underscore of the Python
name marks in-place mutation of `args`: the resolver stores the realized
effective batch size and the derived accumulation count back into the args
(which line 328 and line 335 of train.py subsequently read), and returns the
per-forward-pass batch size (bound to `effective_batch_size_per_step`). -/
def handle_batch_size_logic (a : TrainingArgs) : Except ConfigError (TrainingArgs × ℕ) :=
  if a.batch_size_per_device = 0 ∨ a.num_devices = 0 then
    .error ConfigError.nonPositiveDeviceOrBatch
  else
    let per_step := a.batch_size_per_device * a.num_devices
    match a.effective_batch_size with
    | none =>
        .ok ({ a with effective_batch_size := some per_step,
                      gradient_accumulation_steps := 1 }, per_step)
    | some requested =>
        let gas := max 1 ((requested + per_step - 1) / per_step)
        .ok ({ a with effective_batch_size := some (per_step * gas),
                      gradient_accumulation_steps := gas }, per_step)

/-- Lines 327-337 of train.py: the string-keyed branch computing
`goal_units_per_optimizer_step` and `goal_units_per_forward_pass` from the
training-goal unit; the final `else` raises ValueError. When the unit is
samples or tokens the branch reads `args.effective_batch_size`, which Python
would fail on were it still `None`. -/
def goalUnits (a : TrainingArgs) (effective_batch_size_per_step : ℕ) :
    Except ConfigError (ℚ × ℚ) :=
  if a.training_goal_unit = "samples" then
    match a.effective_batch_size with
    | none => .error ConfigError.missingEffectiveBatchSize
    | some ebs => .ok ((ebs : ℚ), (effective_batch_size_per_step : ℚ))
  else if a.training_goal_unit = "tokens" then
    match a.effective_batch_size with
    | none => .error ConfigError.missingEffectiveBatchSize
    | some ebs =>
        .ok ((ebs : ℚ) * (a.max_sequence_length : ℚ),
             (effective_batch_size_per_step : ℚ) * (a.max_sequence_length : ℚ))
  else if a.training_goal_unit = "optimizer-steps" then
    .ok (1, 1 / (a.gradient_accumulation_steps : ℚ))
  else
    .error (ConfigError.unknownUnit a.training_goal_unit)

/-- The step counts produced by lines 340-346 of train.py. -/
structure ResolvedSchedule where
  training_goal : ℤ
  val_frequency_in_optimization_steps : ℤ
  val_frequency : ℤ
  model_log_frequency : ℤ
  lr_warmup : ℤ
  deriving DecidableEq, Repr

/-- Lines 327-346 of train.py (the "Calulate training constants" block):
resolve the goal units, then convert the training goal, the validation
cadence (twice: once per optimizer step for logging, once per forward pass
for the trainer), the checkpoint cadence and the warmup length into step
counts with Python `int()` division. The mutation order of the source is
respected: `args.val_frequency` is read for both of its conversions before
being overwritten. -/
def calculateTrainingConstants (a : TrainingArgs)
    (effective_batch_size_per_step : ℕ) : Except ConfigError ResolvedSchedule := do
  let units ← goalUnits a effective_batch_size_per_step
  let ups := units.1
  let upf := units.2
  pure { training_goal := pyInt (a.training_goal / ups),
         val_frequency_in_optimization_steps := pyInt (a.val_frequency / ups),
         val_frequency := pyInt (a.val_frequency / upf),
         model_log_frequency := pyInt (a.model_log_frequency / ups),
         lr_warmup := pyInt (a.lr_warmup / ups) }

/-- The configuration pipeline of train.py in source order: `__post_init__`
at argument-parse time, then `handle_batch_size_logic_` (line 304), then the
training-constant calculation (lines 327-346). Returns the post-resolution
args, the per-forward-pass batch size, and the resolved schedule. -/
def mainPipeline (a : TrainingArgs) :
    Except ConfigError (TrainingArgs × ℕ × ResolvedSchedule) := do
  let resolved ← handle_batch_size_logic a.postInit
  let sched ← calculateTrainingConstants resolved.1 resolved.2
  pure (resolved.1, resolved.2, sched)

/-! ## Spec-side definitions

These two definitions follow the wording of spec section 4.3 (MFUEstimator)
rather than the source; they exist to be compared with the source-derived
definitions `R` and `mfu`. -/

/-- Formula of spec section 4.3, stated from the words of the spec:
theoretical_peak = hardware_flops_constant / (6*P + 12*L*H*d*S). -/
def theoreticalPeakSpec (hardware_flops_constant P L H d S : ℚ) : ℚ :=
  hardware_flops_constant / (6 * P + 12 * L * H * d * S)

/-- Formula of spec section 4.3, stated from the words of the spec:
mfu = observed_tokens_per_second / theoretical_peak. -/
def mfuSpec (observed_tokens_per_second theoretical_peak : ℚ) : ℚ :=
  observed_tokens_per_second / theoretical_peak

/-! ## Concrete runs used as witness and counterexample inputs -/

/-- A run whose store reads and commit all succeed. -/
def okRun : WandbRun :=
  { runName := "run-ok",
    max_sequence_length := .ok 512,
    tokens_per_second_mean := .ok 20000,
    update_result := .ok () }

/-- A run whose config read raises a store error. -/
def failingRun : WandbRun :=
  { runName := "run-bad",
    max_sequence_length := .error "MetricsStoreError",
    tokens_per_second_mean := .ok 20000,
    update_result := .ok () }

/-! ## Inversion lemmas for the train.py pipeline -/

theorem handle_batch_size_logic_ok {a a2 : TrainingArgs} {per_step : ℕ}
    (h : handle_batch_size_logic a = .ok (a2, per_step)) :
    a.batch_size_per_device ≠ 0 ∧ a.num_devices ≠ 0 ∧
    per_step = a.batch_size_per_device * a.num_devices ∧
    1 ≤ a2.gradient_accumulation_steps ∧
    a2.effective_batch_size = some (per_step * a2.gradient_accumulation_steps) ∧
    (∀ requested, a.effective_batch_size = some requested →
      a2.gradient_accumulation_steps = max 1 ((requested + per_step - 1) / per_step)) ∧
    a2.training_goal = a.training_goal ∧
    a2.training_goal_unit = a.training_goal_unit ∧
    a2.val_frequency = a.val_frequency ∧
    a2.model_log_frequency = a.model_log_frequency ∧
    a2.lr_warmup = a.lr_warmup ∧
    a2.max_sequence_length = a.max_sequence_length := by
  unfold handle_batch_size_logic at h
  by_cases hz : a.batch_size_per_device = 0 ∨ a.num_devices = 0
  · rw [if_pos hz] at h
    exact absurd h (by simp)
  · rw [if_neg hz] at h
    obtain ⟨hb, hd⟩ := not_or.mp hz
    cases hebs : a.effective_batch_size with
    | none =>
        rw [hebs] at h
        simp only [Except.ok.injEq, Prod.mk.injEq] at h
        obtain ⟨ha2, hps⟩ := h
        subst ha2
        refine ⟨hb, hd, hps.symm, le_refl 1, ?_, ?_, rfl, rfl, rfl, rfl, rfl, rfl⟩
        · simp [hps]
        · intro requested hr
          exact absurd hr (by simp)
    | some requested =>
        rw [hebs] at h
        simp only [Except.ok.injEq, Prod.mk.injEq] at h
        obtain ⟨ha2, hps⟩ := h
        subst ha2
        refine ⟨hb, hd, hps.symm, le_max_left 1 _, ?_, ?_, rfl, rfl, rfl, rfl, rfl, rfl⟩
        · simp [hps]
        · intro req2 hr
          injection hr with hr2
          subst hr2
          simp [hps]

theorem le_mul_max_one_ceil (req ps : ℕ) (hps : ps ≠ 0) :
    req ≤ ps * max 1 ((req + ps - 1) / ps) := by
  by_cases hreq : req = 0
  · simp [hreq]
  · have hc : 1 ≤ (req + ps - 1) / ps :=
      (Nat.le_div_iff_mul_le (Nat.pos_of_ne_zero hps)).mpr (by omega)
    rw [max_eq_right hc]
    have h1 := Nat.div_add_mod (req + ps - 1) ps
    have h2 := Nat.mod_lt (req + ps - 1) (Nat.pos_of_ne_zero hps)
    omega

theorem goalUnits_ok {a : TrainingArgs} {per_step : ℕ} {ups upf : ℚ}
    (h : goalUnits a per_step = .ok (ups, upf)) :
    (a.training_goal_unit = "samples" ∧ ∃ ebs : ℕ,
      a.effective_batch_size = some ebs ∧ ups = (ebs : ℚ) ∧ upf = (per_step : ℚ)) ∨
    (a.training_goal_unit = "tokens" ∧ ∃ ebs : ℕ,
      a.effective_batch_size = some ebs ∧
      ups = (ebs : ℚ) * (a.max_sequence_length : ℚ) ∧
      upf = (per_step : ℚ) * (a.max_sequence_length : ℚ)) ∨
    (a.training_goal_unit = "optimizer-steps" ∧ ups = 1 ∧
      upf = 1 / (a.gradient_accumulation_steps : ℚ)) := by
  unfold goalUnits at h
  by_cases h1 : a.training_goal_unit = "samples"
  · rw [if_pos h1] at h
    cases hebs : a.effective_batch_size with
    | none => rw [hebs] at h; exact absurd h (by simp)
    | some ebs =>
        rw [hebs] at h
        simp only [Except.ok.injEq, Prod.mk.injEq] at h
        exact Or.inl ⟨h1, ebs, rfl, h.1.symm, h.2.symm⟩
  · rw [if_neg h1] at h
    by_cases h2 : a.training_goal_unit = "tokens"
    · rw [if_pos h2] at h
      cases hebs : a.effective_batch_size with
      | none => rw [hebs] at h; exact absurd h (by simp)
      | some ebs =>
          rw [hebs] at h
          simp only [Except.ok.injEq, Prod.mk.injEq] at h
          exact Or.inr (Or.inl ⟨h2, ebs, rfl, h.1.symm, h.2.symm⟩)
    · rw [if_neg h2] at h
      by_cases h3 : a.training_goal_unit = "optimizer-steps"
      · rw [if_pos h3] at h
        simp only [Except.ok.injEq, Prod.mk.injEq] at h
        exact Or.inr (Or.inr ⟨h3, h.1.symm, h.2.symm⟩)
      · rw [if_neg h3] at h
        exact absurd h (by simp)

theorem calculateTrainingConstants_of_units {a : TrainingArgs} {per_step : ℕ}
    {ups upf : ℚ} (h : goalUnits a per_step = .ok (ups, upf)) :
    calculateTrainingConstants a per_step = .ok
      { training_goal := pyInt (a.training_goal / ups),
        val_frequency_in_optimization_steps := pyInt (a.val_frequency / ups),
        val_frequency := pyInt (a.val_frequency / upf),
        model_log_frequency := pyInt (a.model_log_frequency / ups),
        lr_warmup := pyInt (a.lr_warmup / ups) } := by
  simp [calculateTrainingConstants, h, bind, Except.bind, pure, Except.pure]

theorem mainPipeline_ok {a a2 : TrainingArgs} {per_step : ℕ} {sched : ResolvedSchedule}
    (h : mainPipeline a = .ok (a2, per_step, sched)) :
    handle_batch_size_logic a.postInit = .ok (a2, per_step) ∧
    calculateTrainingConstants a2 per_step = .ok sched := by
  unfold mainPipeline at h
  cases hb : handle_batch_size_logic a.postInit with
  | error e =>
      rw [hb] at h
      exact absurd h (by simp [bind, Except.bind])
  | ok v =>
      obtain ⟨va, vp⟩ := v
      rw [hb] at h
      simp only [bind, Except.bind] at h
      cases hc : calculateTrainingConstants va vp with
      | error e =>
          rw [hc] at h
          exact absurd h (by simp)
      | ok s =>
          rw [hc] at h
          simp only [pure, Except.pure, Except.ok.injEq, Prod.mk.injEq] at h
          obtain ⟨h1, h2, h3⟩ := h
          subst h1; subst h2; subst h3
          exact ⟨rfl, hc⟩

theorem ups_pos {a2 : TrainingArgs} {per_step : ℕ} {ups upf : ℚ}
    (h : goalUnits a2 per_step = .ok (ups, upf))
    (hebs : a2.effective_batch_size = some (per_step * a2.gradient_accumulation_steps))
    (hps : per_step ≠ 0) (hgas : 1 ≤ a2.gradient_accumulation_steps)
    (hseq : 0 < a2.max_sequence_length) : 0 < ups := by
  have hprod : 0 < per_step * a2.gradient_accumulation_steps :=
    Nat.mul_pos (Nat.pos_of_ne_zero hps) hgas
  rcases goalUnits_ok h with ⟨_, ebs, he, hu, _⟩ | ⟨_, ebs, he, hu, _⟩ | ⟨_, hu, _⟩
  · rw [hebs] at he
    simp only [Option.some.injEq] at he
    subst he
    rw [hu]
    exact_mod_cast hprod
  · rw [hebs] at he
    simp only [Option.some.injEq] at he
    subst he
    rw [hu]
    have h1 : (0 : ℚ) < (per_step * a2.gradient_accumulation_steps : ℕ) := by
      exact_mod_cast hprod
    have h2 : (0 : ℚ) < (a2.max_sequence_length : ℕ) := by exact_mod_cast hseq
    exact mul_pos h1 h2
  · rw [hu]; norm_num

theorem calculateTrainingConstants_map (a : TrainingArgs) (ps : ℕ) :
    calculateTrainingConstants a ps =
      (goalUnits a ps).map (fun units =>
        { training_goal := pyInt (a.training_goal / units.1),
          val_frequency_in_optimization_steps := pyInt (a.val_frequency / units.1),
          val_frequency := pyInt (a.val_frequency / units.2),
          model_log_frequency := pyInt (a.model_log_frequency / units.1),
          lr_warmup := pyInt (a.lr_warmup / units.1) }) := by
  unfold calculateTrainingConstants
  cases goalUnits a ps <;> simp [bind, Except.bind, Except.map, pure, Except.pure]

theorem mainPipeline_eq_calc {a a2 : TrainingArgs} {ps : ℕ}
    (hres : handle_batch_size_logic a.postInit = .ok (a2, ps)) :
    mainPipeline a =
      (calculateTrainingConstants a2 ps).map (fun sched => (a2, ps, sched)) := by
  unfold mainPipeline
  rw [hres]
  cases hc : calculateTrainingConstants a2 ps <;>
    simp [hc, bind, Except.bind, Except.map, pure, Except.pure]

theorem goalUnits_unknown {a : TrainingArgs} (ps : ℕ)
    (h1 : a.training_goal_unit ≠ "samples") (h2 : a.training_goal_unit ≠ "tokens")
    (h3 : a.training_goal_unit ≠ "optimizer-steps") :
    goalUnits a ps = .error (ConfigError.unknownUnit a.training_goal_unit) := by
  unfold goalUnits
  rw [if_neg h1, if_neg h2, if_neg h3]

theorem goalUnits_recognized_ok {a : TrainingArgs} (ps : ℕ) {ebs : ℕ}
    (hebs : a.effective_batch_size = some ebs)
    (hrec : a.training_goal_unit = "samples" ∨ a.training_goal_unit = "tokens" ∨
      a.training_goal_unit = "optimizer-steps") :
    ∃ units, goalUnits a ps = .ok units := by
  unfold goalUnits
  rcases hrec with h | h | h
  · rw [if_pos h, hebs]
    exact ⟨_, rfl⟩
  · rw [if_neg (by simp [h]), if_pos h, hebs]
    exact ⟨_, rfl⟩
  · rw [if_neg (by simp [h]), if_neg (by simp [h]), if_pos h]
    exact ⟨_, rfl⟩

theorem tokens_ne_samples : ("tokens" : String) ≠ "samples" := by decide

theorem optsteps_ne_samples : ("optimizer-steps" : String) ≠ "samples" := by decide

theorem optsteps_ne_tokens : ("optimizer-steps" : String) ≠ "tokens" := by decide

theorem postInit_preserves (a : TrainingArgs) :
    a.postInit.training_goal = a.training_goal ∧
    a.postInit.training_goal_unit = a.training_goal_unit ∧
    a.postInit.batch_size_per_device = a.batch_size_per_device ∧
    a.postInit.num_devices = a.num_devices ∧
    a.postInit.effective_batch_size = a.effective_batch_size ∧
    a.postInit.gradient_accumulation_steps = a.gradient_accumulation_steps ∧
    a.postInit.max_sequence_length = a.max_sequence_length :=
  ⟨rfl, rfl, rfl, rfl, rfl, rfl, rfl⟩

/-! ## Concrete training configurations used as witness and counterexample inputs -/

/-- The default configuration of train.py: a goal of ten million samples, an
effective batch size of 256, fractional schedule values. -/
def samplesGoalArgs : TrainingArgs :=
  { training_goal := 10000000, training_goal_unit := "samples",
    val_frequency := 1 / 20, model_log_frequency := 1 / 10, lr_warmup := 1 / 10,
    batch_size_per_device := 32, effective_batch_size := some 256,
    num_devices := 8, gradient_accumulation_steps := 1,
    max_sequence_length := 512 }

/-- samplesGoalArgs after parse-time fraction resolution and batch-size
resolution (the fields the pipeline mutates, spelled out). -/
def postSamplesArgs : TrainingArgs :=
  { samplesGoalArgs with
    val_frequency := 500000, model_log_frequency := 1000000, lr_warmup := 1000000 }

/-- A configuration whose training goal of one sample resolves to zero
optimizer steps. -/
def zeroGoalArgs : TrainingArgs :=
  { training_goal := 1, training_goal_unit := "samples",
    val_frequency := 5, model_log_frequency := 7, lr_warmup := 9,
    batch_size_per_device := 32, effective_batch_size := some 256,
    num_devices := 8, gradient_accumulation_steps := 1,
    max_sequence_length := 512 }

/-- A tokens-unit configuration in which the requested effective batch size
(200) is not divisible by the per-forward-pass batch size (16 * 4 = 64), so
the realized effective batch size (64 * 4 = 256) differs from the request. -/
def tokensGoalArgs : TrainingArgs :=
  { training_goal := 10000000, training_goal_unit := "tokens",
    val_frequency := 500000, model_log_frequency := 1000000, lr_warmup := 1000000,
    batch_size_per_device := 16, effective_batch_size := some 200,
    num_devices := 4, gradient_accumulation_steps := 1,
    max_sequence_length := 512 }

/-- tokensGoalArgs after batch-size resolution: four accumulation steps and a
realized effective batch size of 256. -/
def tokensResolvedArgs : TrainingArgs :=
  { tokensGoalArgs with
    effective_batch_size := some 256, gradient_accumulation_steps := 4 }

/-! ## Claim C1 -/

/-- C1: in the training-constant calculation, the validation cadence is
divided by goal_units_per_forward_pass while the checkpoint cadence and the
warmup length are divided by goal_units_per_optimizer_step, and for every
recognized training-goal unit the two divisors are related by exactly the
factor gradient_accumulation_steps:
units_per_optimizer_step = gradient_accumulation_steps * units_per_forward_pass. -/
theorem goal_divisor_asymmetry (a a2 : TrainingArgs) (per_step : ℕ) (ups upf : ℚ)
    (sched : ResolvedSchedule)
    (h1 : handle_batch_size_logic a = .ok (a2, per_step))
    (h2 : goalUnits a2 per_step = .ok (ups, upf))
    (h3 : calculateTrainingConstants a2 per_step = .ok sched) :
    sched.val_frequency = pyInt (a2.val_frequency / upf) ∧
    sched.model_log_frequency = pyInt (a2.model_log_frequency / ups) ∧
    sched.lr_warmup = pyInt (a2.lr_warmup / ups) ∧
    ups = (a2.gradient_accumulation_steps : ℚ) * upf := by
  have hcalc := calculateTrainingConstants_of_units h2
  rw [h3] at hcalc
  injection hcalc with hsched
  obtain ⟨hb, hd, hps, hgas, hebs, -, -, -, -, -, -, -⟩ := handle_batch_size_logic_ok h1
  refine ⟨by rw [hsched], by rw [hsched], by rw [hsched], ?_⟩
  have hgasq : ((a2.gradient_accumulation_steps : ℕ) : ℚ) ≠ 0 := by
    have hne : a2.gradient_accumulation_steps ≠ 0 := Nat.pos_iff_ne_zero.mp hgas
    exact_mod_cast hne
  rcases goalUnits_ok h2 with ⟨-, ebs, he, hups, hupf⟩ | ⟨-, ebs, he, hups, hupf⟩ |
      ⟨-, hups, hupf⟩
  · rw [hebs] at he
    injection he with he2
    subst he2
    rw [hups, hupf]
    push_cast
    ring
  · rw [hebs] at he
    injection he with he2
    subst he2
    rw [hups, hupf]
    push_cast
    ring
  · rw [hups, hupf]
    field_simp

/-- Witness for C1 at the concrete tokens-unit configuration with four
gradient-accumulation steps: the optimizer-step divisor 131072 = 256 * 512 is
exactly 4 times the forward-pass divisor 32768 = 64 * 512, and the resolved
cadences come from the respective divisors. -/
theorem goal_divisor_asymmetry_witness :
    ({ training_goal := 76, val_frequency_in_optimization_steps := 3,
       val_frequency := 15, model_log_frequency := 7,
       lr_warmup := 7 } : ResolvedSchedule).val_frequency =
        pyInt (tokensResolvedArgs.val_frequency / 32768) ∧
    ({ training_goal := 76, val_frequency_in_optimization_steps := 3,
       val_frequency := 15, model_log_frequency := 7,
       lr_warmup := 7 } : ResolvedSchedule).model_log_frequency =
        pyInt (tokensResolvedArgs.model_log_frequency / 131072) ∧
    ({ training_goal := 76, val_frequency_in_optimization_steps := 3,
       val_frequency := 15, model_log_frequency := 7,
       lr_warmup := 7 } : ResolvedSchedule).lr_warmup =
        pyInt (tokensResolvedArgs.lr_warmup / 131072) ∧
    (131072 : ℚ) = (tokensResolvedArgs.gradient_accumulation_steps : ℚ) * 32768 :=
  goal_divisor_asymmetry tokensGoalArgs tokensResolvedArgs 64 131072 32768
    { training_goal := 76, val_frequency_in_optimization_steps := 3,
      val_frequency := 15, model_log_frequency := 7, lr_warmup := 7 }
    (by norm_num [handle_batch_size_logic, tokensGoalArgs, tokensResolvedArgs])
    (by norm_num [goalUnits, tokensResolvedArgs, tokensGoalArgs, tokens_ne_samples])
    (by norm_num [calculateTrainingConstants, goalUnits, tokensResolvedArgs,
          tokensGoalArgs, pyInt, tokens_ne_samples, bind, Except.bind, pure, Except.pure])

/-! ## Claim C2 -/

/-- C2: whenever the pipeline succeeds on a goal with a recognized unit, the
total step count it produces is the floor of goal magnitude divided by
units_per_optimizer_step; in particular the default samples-unit
configuration (magnitude 10,000,000, effective batch size 256) resolves to
exactly 39062 optimizer steps. -/
theorem optimizer_steps_total_floor (a a2 : TrainingArgs) (per_step : ℕ)
    (sched : ResolvedSchedule) (ups upf : ℚ)
    (h : mainPipeline a = .ok (a2, per_step, sched))
    (hu : goalUnits a2 per_step = .ok (ups, upf))
    (hg : 0 ≤ a.training_goal)
    (hseq : 0 < a.max_sequence_length) :
    (0 < ups ∧ sched.training_goal = ⌊a.training_goal / ups⌋) ∧
    mainPipeline samplesGoalArgs =
      .ok (postSamplesArgs, 256,
        { training_goal := 39062, val_frequency_in_optimization_steps := 1953,
          val_frequency := 1953, model_log_frequency := 3906, lr_warmup := 3906 }) := by
  obtain ⟨hbok, hcok⟩ := mainPipeline_ok h
  obtain ⟨hbz, hdz, hps, hgas, hebs, -, hgoal, -, -, -, -, hseq2⟩ :=
    handle_batch_size_logic_ok hbok
  have hgoal2 : a2.training_goal = a.training_goal := hgoal
  have hseq3 : a2.max_sequence_length = a.max_sequence_length := hseq2
  have hps_ne : per_step ≠ 0 := by
    rw [hps]
    exact Nat.mul_ne_zero hbz hdz
  have hupos : 0 < ups := ups_pos hu hebs hps_ne hgas (by rw [hseq3]; exact hseq)
  constructor
  · refine ⟨hupos, ?_⟩
    have hcalc := calculateTrainingConstants_of_units hu
    rw [hcok] at hcalc
    injection hcalc with hsched
    rw [hsched]
    show pyInt (a2.training_goal / ups) = _
    rw [hgoal2, pyInt_eq_floor _ (div_nonneg hg (le_of_lt hupos))]
  · simp [mainPipeline, TrainingArgs.postInit, handle_batch_size_logic, goalUnits,
        calculateTrainingConstants, samplesGoalArgs, postSamplesArgs, pyInt,
        bind, Except.bind, pure, Except.pure]
    norm_num

/-- Witness for C2 at the default samples-unit configuration: the divisor 256
is positive and 39062 = floor(10000000 / 256). -/
theorem optimizer_steps_total_floor_witness :
    ((0 : ℚ) < 256 ∧
      ({ training_goal := 39062, val_frequency_in_optimization_steps := 1953,
         val_frequency := 1953, model_log_frequency := 3906,
         lr_warmup := 3906 } : ResolvedSchedule).training_goal =
        ⌊samplesGoalArgs.training_goal / (256 : ℚ)⌋) ∧
    mainPipeline samplesGoalArgs =
      .ok (postSamplesArgs, 256,
        { training_goal := 39062, val_frequency_in_optimization_steps := 1953,
          val_frequency := 1953, model_log_frequency := 3906, lr_warmup := 3906 }) :=
  optimizer_steps_total_floor samplesGoalArgs postSamplesArgs 256
    { training_goal := 39062, val_frequency_in_optimization_steps := 1953,
      val_frequency := 1953, model_log_frequency := 3906, lr_warmup := 3906 }
    256 256
    (by simp [mainPipeline, TrainingArgs.postInit, handle_batch_size_logic, goalUnits,
          calculateTrainingConstants, samplesGoalArgs, postSamplesArgs, pyInt,
          bind, Except.bind, pure, Except.pure];
        norm_num)
    (by norm_num [goalUnits, postSamplesArgs, samplesGoalArgs])
    (by norm_num [samplesGoalArgs])
    (by norm_num [samplesGoalArgs])

/-! ## Claim C3 -/

/-- C3 counterexample: a goal of one sample against an effective batch size
of 256 resolves every step count (total optimizer steps, both validation
cadences, checkpoint cadence, warmup) to zero, yet the pipeline returns
successfully instead of failing — the source has no zero-or-negative check
on resolved step counts. -/
theorem no_failure_on_zero_resolved_steps :
    mainPipeline zeroGoalArgs =
      .ok ({ zeroGoalArgs with gradient_accumulation_steps := 1 }, 256,
        { training_goal := 0, val_frequency_in_optimization_steps := 0,
          val_frequency := 0, model_log_frequency := 0, lr_warmup := 0 }) := by
  simp [mainPipeline, TrainingArgs.postInit, handle_batch_size_logic, goalUnits,
        calculateTrainingConstants, zeroGoalArgs, pyInt, bind, Except.bind, pure,
        Except.pure]
  norm_num

/-- C3 amended: with positive device and per-device batch counts and a
positive sequence length, the training-constant resolution fails if and only
if the training-goal unit is not one of samples, tokens, optimizer-steps,
and then with the ValueError of line 337 (the spec's ConfigError); a
resolved step count of zero or below raises nothing. The sequence-length
hypothesis excludes the one input outside this model: with unit tokens and
max_sequence_length = 0, line 340 of train.py divides by a zero
units_per_optimizer_step and raises ZeroDivisionError, which the total
rational division here does not reproduce. -/
theorem resolution_fails_only_on_unknown_unit (a : TrainingArgs)
    (hb : a.batch_size_per_device ≠ 0) (hd : a.num_devices ≠ 0)
    (hseq : 0 < a.max_sequence_length) :
    ((∃ result, mainPipeline a = .ok result) ↔
      (a.training_goal_unit = "samples" ∨ a.training_goal_unit = "tokens" ∨
        a.training_goal_unit = "optimizer-steps")) ∧
    ((a.training_goal_unit ≠ "samples" ∧ a.training_goal_unit ≠ "tokens" ∧
        a.training_goal_unit ≠ "optimizer-steps") →
      mainPipeline a = .error (ConfigError.unknownUnit a.training_goal_unit)) := by
  have hbp : a.postInit.batch_size_per_device ≠ 0 := hb
  have hdp : a.postInit.num_devices ≠ 0 := hd
  have hres : ∃ a2 ps, handle_batch_size_logic a.postInit = .ok (a2, ps) := by
    unfold handle_batch_size_logic
    rw [if_neg (not_or.mpr ⟨hbp, hdp⟩)]
    cases a.postInit.effective_batch_size
    · exact ⟨_, _, rfl⟩
    · exact ⟨_, _, rfl⟩
  obtain ⟨a2, ps, hres⟩ := hres
  obtain ⟨-, -, -, hgas, hebs, -, -, hunit, -, -, -, -⟩ := handle_batch_size_logic_ok hres
  have hunit2 : a2.training_goal_unit = a.training_goal_unit := hunit
  have hmap := mainPipeline_eq_calc hres
  constructor
  · constructor
    · rintro ⟨⟨r1, r2, r3⟩, hok⟩
      obtain ⟨hbs, hc⟩ := mainPipeline_ok hok
      rw [calculateTrainingConstants_map] at hc
      cases hgu : goalUnits r1 r2 with
      | error e =>
          rw [hgu] at hc
          exact absurd hc (by simp [Except.map])
      | ok u =>
          obtain ⟨-, -, -, -, -, -, -, hunit3, -, -, -, -⟩ := handle_batch_size_logic_ok hbs
          rcases goalUnits_ok hgu with ⟨h, -⟩ | ⟨h, -⟩ | ⟨h, -⟩
          · rw [hunit3] at h
            exact Or.inl h
          · rw [hunit3] at h
            exact Or.inr (Or.inl h)
          · rw [hunit3] at h
            exact Or.inr (Or.inr h)
    · intro hrec
      have hrec2 : a2.training_goal_unit = "samples" ∨ a2.training_goal_unit = "tokens" ∨
          a2.training_goal_unit = "optimizer-steps" := by
        rw [hunit2]; exact hrec
      obtain ⟨units, hgu⟩ := goalUnits_recognized_ok ps hebs hrec2
      rw [hmap, calculateTrainingConstants_map, hgu]
      exact ⟨_, rfl⟩
  · rintro ⟨hn1, hn2, hn3⟩
    have hgu := goalUnits_unknown (a := a2) ps
      (by rw [hunit2]; exact hn1) (by rw [hunit2]; exact hn2) (by rw [hunit2]; exact hn3)
    rw [hmap, calculateTrainingConstants_map, hgu, hunit2]
    rfl

/-- Witness for C3 (amended) at the default configuration: the unit samples
is recognized, so the pipeline succeeds. -/
theorem resolution_fails_only_on_unknown_unit_witness :
    ((∃ result, mainPipeline samplesGoalArgs = .ok result) ↔
      (samplesGoalArgs.training_goal_unit = "samples" ∨
        samplesGoalArgs.training_goal_unit = "tokens" ∨
        samplesGoalArgs.training_goal_unit = "optimizer-steps")) ∧
    ((samplesGoalArgs.training_goal_unit ≠ "samples" ∧
        samplesGoalArgs.training_goal_unit ≠ "tokens" ∧
        samplesGoalArgs.training_goal_unit ≠ "optimizer-steps") →
      mainPipeline samplesGoalArgs =
        .error (ConfigError.unknownUnit samplesGoalArgs.training_goal_unit)) :=
  resolution_fails_only_on_unknown_unit samplesGoalArgs (by decide) (by decide)
    (by decide)

/-! ## Claim C4 -/

/-- C4: when an effective batch size was requested, the goal-unit divisor is
computed from the realized effective batch size per_step * gradient
accumulation steps (which is at least the request), never from the requested
value; whenever the two differ the divisor differs from the one the
requested value would give, for both units in which the batch size enters. -/
theorem downstream_uses_realized_batch_size (a a2 : TrainingArgs)
    (per_step requested : ℕ) (ups upf : ℚ)
    (hreq : a.effective_batch_size = some requested)
    (h1 : handle_batch_size_logic a = .ok (a2, per_step))
    (h2 : goalUnits a2 per_step = .ok (ups, upf))
    (hseq : 0 < a.max_sequence_length) :
    a2.effective_batch_size = some (per_step * a2.gradient_accumulation_steps) ∧
    requested ≤ per_step * a2.gradient_accumulation_steps ∧
    (a.training_goal_unit = "samples" →
      ups = ((per_step * a2.gradient_accumulation_steps : ℕ) : ℚ) ∧
      (per_step * a2.gradient_accumulation_steps ≠ requested →
        ups ≠ (requested : ℚ))) ∧
    (a.training_goal_unit = "tokens" →
      ups = ((per_step * a2.gradient_accumulation_steps : ℕ) : ℚ) *
        (a.max_sequence_length : ℚ) ∧
      (per_step * a2.gradient_accumulation_steps ≠ requested →
        ups ≠ (requested : ℚ) * (a.max_sequence_length : ℚ))) := by
  obtain ⟨hbz, hdz, hps, hgas, hebs, hgasf, -, hunit, -, -, -, hmsl⟩ :=
    handle_batch_size_logic_ok h1
  have hps_ne : per_step ≠ 0 := by
    rw [hps]
    exact Nat.mul_ne_zero hbz hdz
  have hgaseq := hgasf requested hreq
  have hle : requested ≤ per_step * a2.gradient_accumulation_steps := by
    rw [hgaseq]
    exact le_mul_max_one_ceil requested per_step hps_ne
  refine ⟨hebs, hle, ?_, ?_⟩
  · intro hu
    have hu2 : a2.training_goal_unit = "samples" := by rw [hunit]; exact hu
    rcases goalUnits_ok h2 with ⟨-, ebs, he, hups, -⟩ | ⟨hcase, -⟩ | ⟨hcase, -⟩
    · rw [hebs] at he
      injection he with he2
      subst he2
      refine ⟨hups, ?_⟩
      intro hne heq
      rw [hups] at heq
      exact hne (by exact_mod_cast heq)
    · exact absurd (hcase.symm.trans hu2) tokens_ne_samples
    · exact absurd (hcase.symm.trans hu2) optsteps_ne_samples
  · intro hu
    have hu2 : a2.training_goal_unit = "tokens" := by rw [hunit]; exact hu
    rcases goalUnits_ok h2 with ⟨hcase, -⟩ | ⟨-, ebs, he, hups, -⟩ | ⟨hcase, -⟩
    · exact absurd (hcase.symm.trans hu2) (by decide)
    · rw [hebs] at he
      injection he with he2
      subst he2
      have hmsl2 : a2.max_sequence_length = a.max_sequence_length := hmsl
      refine ⟨by rw [hups, hmsl2], ?_⟩
      intro hne heq
      rw [hups, hmsl2] at heq
      have hseqq : ((a.max_sequence_length : ℕ) : ℚ) ≠ 0 := by
        have hne2 := Nat.pos_iff_ne_zero.mp hseq
        exact_mod_cast hne2
      have hcancel := mul_right_cancel₀ hseqq heq
      exact hne (by exact_mod_cast hcancel)
    · exact absurd (hcase.symm.trans hu2) optsteps_ne_tokens

/-- Witness for C4 at the tokens-unit configuration requesting an effective
batch size of 200: the realized value is 64 * 4 = 256 and the divisor
131072 = 256 * 512 comes from it, not from 200 * 512 = 102400. -/
theorem downstream_uses_realized_batch_size_witness :
    tokensResolvedArgs.effective_batch_size =
      some (64 * tokensResolvedArgs.gradient_accumulation_steps) ∧
    200 ≤ 64 * tokensResolvedArgs.gradient_accumulation_steps ∧
    (tokensGoalArgs.training_goal_unit = "samples" →
      (131072 : ℚ) = ((64 * tokensResolvedArgs.gradient_accumulation_steps : ℕ) : ℚ) ∧
      (64 * tokensResolvedArgs.gradient_accumulation_steps ≠ 200 →
        (131072 : ℚ) ≠ ((200 : ℕ) : ℚ))) ∧
    (tokensGoalArgs.training_goal_unit = "tokens" →
      (131072 : ℚ) = ((64 * tokensResolvedArgs.gradient_accumulation_steps : ℕ) : ℚ) *
        (tokensGoalArgs.max_sequence_length : ℚ) ∧
      (64 * tokensResolvedArgs.gradient_accumulation_steps ≠ 200 →
        (131072 : ℚ) ≠ ((200 : ℕ) : ℚ) * (tokensGoalArgs.max_sequence_length : ℚ))) :=
  downstream_uses_realized_batch_size tokensGoalArgs tokensResolvedArgs 64 200
    131072 32768 rfl
    (by norm_num [handle_batch_size_logic, tokensGoalArgs, tokensResolvedArgs])
    (by norm_num [goalUnits, tokensResolvedArgs, tokensGoalArgs, tokens_ne_samples])
    (by norm_num [tokensGoalArgs])

/-! ## Claim C5 -/

/-- C5: each schedule value (validation frequency, checkpoint frequency,
warmup) strictly below 1 is resolved at parse time to the floor of
value * training-goal magnitude; a value of exactly 1 (or any value at least
1) is kept as an absolute count, in particular 1 stays 1 rather than
becoming 100 percent of the goal; and the default fractional validation
frequency 0.05 against the ten-million-sample goal resolves to exactly
500000 before unit conversion. -/
theorem fraction_resolution_at_parse_time (a : TrainingArgs)
    (hg : 0 ≤ a.training_goal) (hv : 0 ≤ a.val_frequency)
    (hm : 0 ≤ a.model_log_frequency) (hw : 0 ≤ a.lr_warmup) :
    ((a.val_frequency < 1 →
        a.postInit.val_frequency = (⌊a.training_goal * a.val_frequency⌋ : ℚ)) ∧
      (1 ≤ a.val_frequency → a.postInit.val_frequency = a.val_frequency) ∧
      (a.val_frequency = 1 → a.postInit.val_frequency = 1)) ∧
    ((a.model_log_frequency < 1 →
        a.postInit.model_log_frequency =
          (⌊a.training_goal * a.model_log_frequency⌋ : ℚ)) ∧
      (1 ≤ a.model_log_frequency →
        a.postInit.model_log_frequency = a.model_log_frequency) ∧
      (a.model_log_frequency = 1 → a.postInit.model_log_frequency = 1)) ∧
    ((a.lr_warmup < 1 →
        a.postInit.lr_warmup = (⌊a.training_goal * a.lr_warmup⌋ : ℚ)) ∧
      (1 ≤ a.lr_warmup → a.postInit.lr_warmup = a.lr_warmup) ∧
      (a.lr_warmup = 1 → a.postInit.lr_warmup = 1)) ∧
    samplesGoalArgs.postInit.val_frequency = 500000 := by
  refine ⟨⟨?_, ?_, ?_⟩, ⟨?_, ?_, ?_⟩, ⟨?_, ?_, ?_⟩, ?_⟩
  · intro hlt
    simp only [TrainingArgs.postInit]
    rw [if_pos hlt, pyInt_eq_floor _ (mul_nonneg hg hv)]
  · intro hge
    simp only [TrainingArgs.postInit]
    rw [if_neg (not_lt.mpr hge)]
  · intro heq
    simp only [TrainingArgs.postInit]
    rw [if_neg (not_lt.mpr (le_of_eq heq.symm)), heq]
  · intro hlt
    simp only [TrainingArgs.postInit]
    rw [if_pos hlt, pyInt_eq_floor _ (mul_nonneg hg hm)]
  · intro hge
    simp only [TrainingArgs.postInit]
    rw [if_neg (not_lt.mpr hge)]
  · intro heq
    simp only [TrainingArgs.postInit]
    rw [if_neg (not_lt.mpr (le_of_eq heq.symm)), heq]
  · intro hlt
    simp only [TrainingArgs.postInit]
    rw [if_pos hlt, pyInt_eq_floor _ (mul_nonneg hg hw)]
  · intro hge
    simp only [TrainingArgs.postInit]
    rw [if_neg (not_lt.mpr hge)]
  · intro heq
    simp only [TrainingArgs.postInit]
    rw [if_neg (not_lt.mpr (le_of_eq heq.symm)), heq]
  · norm_num [TrainingArgs.postInit, samplesGoalArgs, pyInt]

/-- Witness for C5 at the default configuration (fractions 0.05 and 0.1,
goal magnitude ten million). -/
theorem fraction_resolution_at_parse_time_witness :
    ((samplesGoalArgs.val_frequency < 1 →
        samplesGoalArgs.postInit.val_frequency =
          (⌊samplesGoalArgs.training_goal * samplesGoalArgs.val_frequency⌋ : ℚ)) ∧
      (1 ≤ samplesGoalArgs.val_frequency →
        samplesGoalArgs.postInit.val_frequency = samplesGoalArgs.val_frequency) ∧
      (samplesGoalArgs.val_frequency = 1 →
        samplesGoalArgs.postInit.val_frequency = 1)) ∧
    ((samplesGoalArgs.model_log_frequency < 1 →
        samplesGoalArgs.postInit.model_log_frequency =
          (⌊samplesGoalArgs.training_goal * samplesGoalArgs.model_log_frequency⌋ : ℚ)) ∧
      (1 ≤ samplesGoalArgs.model_log_frequency →
        samplesGoalArgs.postInit.model_log_frequency =
          samplesGoalArgs.model_log_frequency) ∧
      (samplesGoalArgs.model_log_frequency = 1 →
        samplesGoalArgs.postInit.model_log_frequency = 1)) ∧
    ((samplesGoalArgs.lr_warmup < 1 →
        samplesGoalArgs.postInit.lr_warmup =
          (⌊samplesGoalArgs.training_goal * samplesGoalArgs.lr_warmup⌋ : ℚ)) ∧
      (1 ≤ samplesGoalArgs.lr_warmup →
        samplesGoalArgs.postInit.lr_warmup = samplesGoalArgs.lr_warmup) ∧
      (samplesGoalArgs.lr_warmup = 1 → samplesGoalArgs.postInit.lr_warmup = 1)) ∧
    samplesGoalArgs.postInit.val_frequency = 500000 :=
  fraction_resolution_at_parse_time samplesGoalArgs
    (by norm_num [samplesGoalArgs]) (by norm_num [samplesGoalArgs])
    (by norm_num [samplesGoalArgs]) (by norm_num [samplesGoalArgs])

/-! ## Claim C6 -/

/-- C6: the offline MFU script computes the theoretical peak by the analytic
formula C / (6*P + 12*L*H*d*S) — the source-derived `R` coincides with the
spec-worded `theoreticalPeakSpec` instantiated at the script's architecture
constants, all of which are positive — and computes mfu as
observed / theoretical peak. -/
theorem theoretical_peak_formula :
    (∀ sequence_length : ℚ,
        R sequence_length =
          theoreticalPeakSpec gpu_constant parameters layers heads head_dimension
            sequence_length) ∧
    (∀ observed r : ℚ, mfu observed r = mfuSpec observed r) ∧
    0 < gpu_constant ∧ 0 < parameters ∧ 0 < layers ∧ 0 < heads ∧ 0 < head_dimension := by
  refine ⟨fun s => rfl, fun o r => rfl, ?_, ?_, ?_, ?_, ?_⟩ <;>
    norm_num [gpu_constant, parameters, layers, heads, head_dimension]

/-! ## Claim C7 -/

/-- C7: MFU round-trip. For every positive theoretical peak and every k in
(0, 2], feeding an observed throughput of peak * k into the mfu computation
returns exactly k, and when k exceeds 1 the returned value exceeds 1 as well
(no clamping). -/
theorem mfu_round_trip (peak k : ℚ) (hpeak : 0 < peak) (hk : 0 < k) (hk2 : k ≤ 2) :
    mfu (peak * k) peak = k ∧ (1 < k → 1 < mfu (peak * k) peak) := by
  have hne : peak ≠ 0 := ne_of_gt hpeak
  have hval : mfu (peak * k) peak = k := by
    simp [mfu, hne, mul_comm peak k, mul_div_assoc]
  exact ⟨hval, fun h1 => by rw [hval]; exact h1⟩

/-- Witness for C7 at peak = 5, k = 3/2: the returned value is 3/2, above 1
and unclamped. -/
theorem mfu_round_trip_witness :
    mfu (5 * (3 / 2)) 5 = 3 / 2 ∧ (1 < (3 / 2 : ℚ) → 1 < mfu (5 * (3 / 2)) 5) :=
  mfu_round_trip 5 (3 / 2) (by norm_num) (by norm_num) (by norm_num)

/-! ## Claim C8 -/

/-- C8: when every store access of one run succeeds, the backfill loop body
emits, after the console print, exactly two summary-field writes —
mean_mfu then max_tokens_theoretical — followed by the explicit
summary.update() commit as the final effect. -/
theorem backfill_writes_two_fields_then_commits (run : WandbRun) (msl tps : ℚ)
    (h1 : run.max_sequence_length = .ok msl)
    (h2 : run.tokens_per_second_mean = .ok tps)
    (h3 : run.update_result = .ok ()) :
    processRun run =
      .ok [StoreEffect.consolePrint run.runName,
           StoreEffect.setSummary "mean_mfu" (runMeanMfu msl tps),
           StoreEffect.setSummary "max_tokens_theoretical" (maxTokensTheoretical msl),
           StoreEffect.summaryUpdate] ∧
    writtenFields [StoreEffect.consolePrint run.runName,
           StoreEffect.setSummary "mean_mfu" (runMeanMfu msl tps),
           StoreEffect.setSummary "max_tokens_theoretical" (maxTokensTheoretical msl),
           StoreEffect.summaryUpdate] = ["mean_mfu", "max_tokens_theoretical"] ∧
    List.getLast? [StoreEffect.consolePrint run.runName,
           StoreEffect.setSummary "mean_mfu" (runMeanMfu msl tps),
           StoreEffect.setSummary "max_tokens_theoretical" (maxTokensTheoretical msl),
           StoreEffect.summaryUpdate] = some StoreEffect.summaryUpdate := by
  refine ⟨?_, ?_, ?_⟩
  · simp [processRun, h1, h2, h3, bind, Except.bind, pure, Except.pure,
          runMeanMfu, maxTokensTheoretical, runTheoretical, R]
  · simp [writtenFields]
  · simp [List.getLast?]

/-- Witness for C8 at a concrete fully-successful run. -/
theorem backfill_writes_two_fields_then_commits_witness :
    processRun okRun =
      .ok [StoreEffect.consolePrint okRun.runName,
           StoreEffect.setSummary "mean_mfu" (runMeanMfu 512 20000),
           StoreEffect.setSummary "max_tokens_theoretical" (maxTokensTheoretical 512),
           StoreEffect.summaryUpdate] :=
  (backfill_writes_two_fields_then_commits okRun 512 20000 rfl rfl rfl).1

/-! ## Claim C9 -/

/-- C9 counterexample: in the batch [failingRun, okRun], the first run's
store-read failure terminates the whole loop (the body has no exception
handler), so the second run — which on its own would be processed
successfully — is never processed, contradicting the claim that the other
runs in the batch continue. -/
theorem backfill_abort_counterexample :
    processRuns [failingRun, okRun] = .error "MetricsStoreError" ∧
    processRun okRun =
      .ok [StoreEffect.consolePrint "run-ok",
           StoreEffect.setSummary "mean_mfu" (runMeanMfu 512 20000),
           StoreEffect.setSummary "max_tokens_theoretical" (maxTokensTheoretical 512),
           StoreEffect.summaryUpdate] := by
  constructor
  · rfl
  · simp [processRun, okRun, bind, Except.bind, pure, Except.pure,
          runMeanMfu, maxTokensTheoretical, runTheoretical, R]

/-- C9 amended: a store failure while processing one run aborts the entire
offline backfill loop — the failing run's writes are skipped and no
subsequent run in the batch is processed. -/
theorem store_failure_aborts_whole_backfill (run : WandbRun) (rest : List WandbRun)
    (e : String) (h : processRun run = .error e) :
    processRuns (run :: rest) = .error e := by
  simp [processRuns, h, bind, Except.bind]

/-- Witness for C9 (amended) at the concrete batch [failingRun, okRun]. -/
theorem store_failure_aborts_whole_backfill_witness :
    processRuns [failingRun, okRun] = .error "MetricsStoreError" :=
  store_failure_aborts_whole_backfill failingRun [okRun] "MetricsStoreError" rfl

/-! ## Claim C10 -/

/-- C10: for every run the backfill processes, the two summary values it
writes multiply back to the recorded TokensPerSecond mean:
mean_mfu * max_tokens_theoretical = tokens_per_second_mean, exactly in the
rational model (hence within floating-point tolerance in the script). -/
theorem mfu_product_recovers_throughput (run : WandbRun) (msl tps : ℚ)
    (h1 : run.max_sequence_length = .ok msl)
    (h2 : run.tokens_per_second_mean = .ok tps)
    (h3 : run.update_result = .ok ())
    (hmsl : 0 ≤ msl) :
    processRun run =
      .ok [StoreEffect.consolePrint run.runName,
           StoreEffect.setSummary "mean_mfu" (runMeanMfu msl tps),
           StoreEffect.setSummary "max_tokens_theoretical" (maxTokensTheoretical msl),
           StoreEffect.summaryUpdate] ∧
    runMeanMfu msl tps * maxTokensTheoretical msl = tps := by
  constructor
  · simp [processRun, h1, h2, h3, bind, Except.bind, pure, Except.pure,
          runMeanMfu, maxTokensTheoretical, runTheoretical, R]
  · have hmul : (0 : ℚ) ≤ 12 * layers * heads * head_dimension * (msl / 10 ^ 3) := by
      have hq : (0 : ℚ) ≤ msl / 10 ^ 3 := by positivity
      have hc : (0 : ℚ) ≤ 12 * layers * heads * head_dimension := by
        norm_num [layers, heads, head_dimension]
      exact mul_nonneg hc hq
    have hpar : (0 : ℚ) < 6 * parameters := by norm_num [parameters]
    have hdenom :
        (0 : ℚ) <
          6 * parameters + 12 * layers * heads * head_dimension * (msl / 10 ^ 3) := by
      linarith
    have hr : runTheoretical msl ≠ 0 := by
      have hgc : (0 : ℚ) < gpu_constant := by norm_num [gpu_constant]
      exact ne_of_gt (div_pos hgc hdenom)
    simp only [runMeanMfu, maxTokensTheoretical, mfu]
    field_simp
    exact Or.inl (mul_comm _ _)

/-- Witness for C10 at the concrete successful run. -/
theorem mfu_product_recovers_throughput_witness :
    runMeanMfu 512 20000 * maxTokensTheoretical 512 = 20000 :=
  (mfu_product_recovers_throughput okRun 512 20000 rfl rfl rfl (by norm_num)).2

end NLPBench
